import Mathlib

/-!
# Verification of the upstream dispatch pipeline of codex-openai-wrapper

A shallow embedding of `src/upstream.ts` (the dispatch orchestrator
`startUpstreamRequest`, the request shaping it performs, and the session
fingerprint generator `generateSessionId`), with theorems about it.

Modelling conventions:
* Machine words are `Nat` reduced modulo `2 ^ 32` (resp. `2 ^ 64`) exactly
  where the platform wraps.
* JavaScript string truthiness (`""`, `undefined` and `null` are falsy) is
  modelled on `Option String` by `strTruthy`; `x || y` on strings is
  `jsOrElse`.
* External collaborators (`getRefreshedAuth`, `refreshAccessToken`,
  `normalizeModelName`, `getBaseInstructions`, and the `fetch` transport)
  are inputs of the embedded orchestrator; the transport is an oracle
  mapping the index of an outbound send to its outcome.
* `console.log` diagnostics (including the KV debug block, whose own
  errors are caught locally) have no control-flow effect and are omitted.
-/

/-- JavaScript truthiness of a possibly-absent string: `undefined`/`null`
and `""` are falsy, every other string is truthy. -/
def strTruthy : Option String → Bool
  | some s => !s.isEmpty
  | none => false

/-- The JavaScript expression `a || b` where `a` is a possibly-absent
string and `b` a string: `b` when `a` is falsy, else `a`. -/
def jsOrElse (a : Option String) (b : String) : String :=
  match a with
  | some s => if s.isEmpty then b else s
  | none => b

/-! ## SHA-256 (the `crypto.subtle.digest("SHA-256", _)` primitive)

`generateSessionId` digests its input with WebCrypto SHA-256; the
algorithm (FIPS 180-4) is embedded here over byte lists. -/

/-- Reduce to a 32-bit word. -/
def w32 (n : Nat) : Nat := n % 4294967296

/-- Bitwise complement on 32-bit words. -/
def wnot (x : Nat) : Nat := x ^^^ 4294967295

/-- Right rotation of a 32-bit word. -/
def rotr (b x : Nat) : Nat := w32 ((x >>> b) ||| (x <<< (32 - b)))

/-- SHA-256 choice function. -/
def shaCh (x y z : Nat) : Nat := (x &&& y) ^^^ (wnot x &&& z)

/-- SHA-256 majority function. -/
def shaMaj (x y z : Nat) : Nat := (x &&& y) ^^^ (x &&& z) ^^^ (y &&& z)

/-- SHA-256 big sigma 0. -/
def bigSigma0 (x : Nat) : Nat := rotr 2 x ^^^ rotr 13 x ^^^ rotr 22 x

/-- SHA-256 big sigma 1. -/
def bigSigma1 (x : Nat) : Nat := rotr 6 x ^^^ rotr 11 x ^^^ rotr 25 x

/-- SHA-256 small sigma 0. -/
def smallSigma0 (x : Nat) : Nat := rotr 7 x ^^^ rotr 18 x ^^^ (x >>> 3)

/-- SHA-256 small sigma 1. -/
def smallSigma1 (x : Nat) : Nat := rotr 17 x ^^^ rotr 19 x ^^^ (x >>> 10)

/-- The 64 SHA-256 round constants (FIPS 180-4: the first 32 bits of the
fractional parts of the cube roots of the first 64 primes), in decimal. -/
def sha256K : List Nat :=
  [1116352408, 1899447441, 3049323471, 3921009573, 961987163,
   1508970993, 2453635748, 2870763221, 3624381080, 310598401,
   607225278, 1426881987, 1925078388, 2162078206, 2614888103,
   3248222580, 3835390401, 4022224774, 264347078, 604807628,
   770255983, 1249150122, 1555081692, 1996064986, 2554220882,
   2821834349, 2952996808, 3210313671, 3336571891, 3584528711,
   113926993, 338241895, 666307205, 773529912, 1294757372,
   1396182291, 1695183700, 1986661051, 2177026350, 2456956037,
   2730485921, 2820302411, 3259730800, 3345764771, 3516065817,
   3600352804, 4094571909, 275423344, 430227734, 506948616,
   659060556, 883997877, 958139571, 1322822218, 1537002063,
   1747873779, 1955562222, 2024104815, 2227730452, 2361852424,
   2428436474, 2756734187, 3204031479, 3329325298]

/-- The eight SHA-256 working variables. -/
structure Sha256State where
  a : Nat
  b : Nat
  c : Nat
  d : Nat
  e : Nat
  f : Nat
  g : Nat
  h : Nat
deriving Repr, DecidableEq

/-- The SHA-256 initial hash value (the first 32 bits of the fractional
parts of the square roots of the first 8 primes), in decimal. -/
def sha256Start : Sha256State :=
  ⟨1779033703, 3144134277, 1013904242, 2773480762,
   1359893119, 2600822924, 528734635, 1541459225⟩

/-- One SHA-256 compression round, given the already-summed `K[t] + W[t]`. -/
def shaRound (st : Sha256State) (kw : Nat) : Sha256State :=
  let t1 := w32 (st.h + bigSigma1 st.e + shaCh st.e st.f st.g + kw)
  let t2 := w32 (bigSigma0 st.a + shaMaj st.a st.b st.c)
  ⟨w32 (t1 + t2), st.a, st.b, st.c, w32 (st.d + t1), st.e, st.f, st.g⟩

/-- Big-endian 32-bit words of a byte list. -/
def bytesToWords : List Nat → List Nat
  | b0 :: b1 :: b2 :: b3 :: rest =>
      ((b0 <<< 24) + (b1 <<< 16) + (b2 <<< 8) + b3) :: bytesToWords rest
  | _ => []

/-- Extend a message schedule by `k` further words. -/
def scheduleExtend : List Nat → Nat → List Nat
  | ws, 0 => ws
  | ws, k + 1 =>
      let n := ws.length
      let w := w32 (smallSigma1 (ws.getD (n - 2) 0) + ws.getD (n - 7) 0 +
        smallSigma0 (ws.getD (n - 15) 0) + ws.getD (n - 16) 0)
      scheduleExtend (ws ++ [w]) k

/-- Compress one 64-byte block into the hash state. -/
def compressBlock (st : Sha256State) (block : List Nat) : Sha256State :=
  let ws := scheduleExtend (bytesToWords block) 48
  let kws := (sha256K.zip ws).map (fun p => w32 (p.1 + p.2))
  let r := kws.foldl shaRound st
  ⟨w32 (st.a + r.a), w32 (st.b + r.b), w32 (st.c + r.c), w32 (st.d + r.d),
   w32 (st.e + r.e), w32 (st.f + r.f), w32 (st.g + r.g), w32 (st.h + r.h)⟩

/-- SHA-256 padding: `0x80`, zeros to 56 mod 64, then the 64-bit big-endian
bit length. -/
def padMessage (msg : List Nat) : List Nat :=
  let L := msg.length
  let k := (120 - (L + 1) % 64) % 64
  let bits := (8 * L) % 18446744073709551616
  msg ++ [128] ++ List.replicate k 0 ++
    [(bits >>> 56) % 256, (bits >>> 48) % 256, (bits >>> 40) % 256, (bits >>> 32) % 256,
     (bits >>> 24) % 256, (bits >>> 16) % 256, (bits >>> 8) % 256, bits % 256]

/-- Split a byte list into successive 64-byte blocks. -/
def chunks64 (bs : List Nat) : List (List Nat) :=
  if h : bs = [] then []
  else bs.take 64 :: chunks64 (bs.drop 64)
termination_by bs.length
decreasing_by
  simp only [List.length_drop]
  exact Nat.sub_lt (List.length_pos.mpr h) (by norm_num)

/-- Big-endian bytes of a 32-bit word. -/
def wordBytes (w : Nat) : List Nat :=
  [(w >>> 24) % 256, (w >>> 16) % 256, (w >>> 8) % 256, w % 256]

/-- SHA-256 of a byte list, as a list of 32 bytes. -/
def sha256 (msg : List Nat) : List Nat :=
  let st := (chunks64 (padMessage msg)).foldl compressBlock sha256Start
  wordBytes st.a ++ wordBytes st.b ++ wordBytes st.c ++ wordBytes st.d ++
  wordBytes st.e ++ wordBytes st.f ++ wordBytes st.g ++ wordBytes st.h

/-! ## Session fingerprint (`generateSessionId`) -/

/-- Two lowercase hexadecimal digits of a byte: the embedding of
`b.toString(16).padStart(2, "0")` for `b < 256`. -/
def hexPair (b : Nat) : List Char :=
  [Nat.digitChar (b / 16 % 16), Nat.digitChar (b % 16)]

/-- Render a byte list as a lowercase hexadecimal string, two digits per
byte (the `hashArray.map(...).join("")` step). -/
def bytesToHex (bs : List Nat) : String := String.mk ((bs.map hexPair).flatten)

/-- UTF-8 bytes of a string (the `new TextEncoder().encode(_)` step). -/
def utf8Bytes (s : String) : List Nat := s.toUTF8.toList.map (fun b => b.toNat)

/-- Input items are opaque to `src/upstream.ts` (their type lives in a
module outside the dispatch pipeline); an item is represented here by its
canonical JSON serialization, and `JSON.stringify` of the item array is
the bracketed comma-join of the items. -/
def jsonStringifyItems (items : List String) : String :=
  "[" ++ String.intercalate "," items ++ "]"

/-- Embedding of `generateSessionId` (`src/upstream.ts`, lines 23-28):
SHA-256 over the UTF-8 encoding of `(instructions || "") + "|" +
JSON.stringify(inputItems)`, rendered as lowercase zero-padded hex. -/
def generateSessionId (instructions : Option String) (inputItems : List String) : String :=
  bytesToHex (sha256 (utf8Bytes ((instructions.getD "") ++ "|" ++ jsonStringifyItems inputItems)))

/-! ## Data model of the dispatch orchestrator -/

/-- The fields of the Cloudflare environment that steer the dispatch:
`OPENAI_CODEX_AUTH` is recorded by its truthiness (its presence is what
enables the refresh mechanism), the two URLs verbatim, and the optional
`DEBUG_MODEL` override.  The `KV` binding feeds only the debug log. -/
structure EnvM where
  OPENAI_CODEX_AUTH : Bool
  CHATGPT_RESPONSES_URL : String
  OLLAMA_API_URL : String
  DEBUG_MODEL : Option String
deriving Repr, DecidableEq

/-- The pair returned by the external `getRefreshedAuth(env)`. -/
structure AuthPair where
  accessToken : Option String
  accountId : Option String
deriving Repr, DecidableEq

/-- The pair returned by the external `refreshAccessToken(env)` when the
forced refresh succeeds. -/
structure RefreshedTokens where
  access_token : String
  account_id : Option String
deriving Repr, DecidableEq

/-- A caller-supplied tool choice as a dynamic (JSON-level) value: either
a string, or an object carrying an optional `type` field and an optional
`function.name` field. -/
inductive ToolChoiceVal where
  | str (s : String)
  | obj (type_ : Option String) (fnName : Option String)
deriving Repr, DecidableEq

/-- `typeof toolChoice === "object"`. -/
def ToolChoiceVal.isObj : ToolChoiceVal → Bool
  | .str _ => false
  | .obj _ _ => true

/-- JavaScript truthiness of a tool-choice value: objects are truthy,
strings are truthy unless empty. -/
def ToolChoiceVal.truthy : ToolChoiceVal → Bool
  | .str s => !s.isEmpty
  | .obj _ _ => true

/-- The `reasoning` parameter `{effort?, summary?}`. -/
structure ReasoningParam where
  effort : Option String
  summary : Option String
deriving Repr, DecidableEq

/-- The options bag of `startUpstreamRequest`.  `tools`, the Ollama
payload and the input items are opaque to the orchestrator and carried as
(serialized) strings. -/
structure Options where
  instructions : Option String
  tools : Option (List String)
  toolChoice : Option ToolChoiceVal
  parallelToolCalls : Option Bool
  reasoningParam : Option ReasoningParam
  ollamaPath : Option String
  ollamaPayload : Option String
deriving Repr, DecidableEq

/-- An options bag with every field absent. -/
def noOptions : Options := ⟨none, none, none, none, none, none, none⟩

/-- An upstream HTTP response, reduced to what the orchestrator inspects:
its status, the best-effort parse of `error.message` from its JSON body
(`none` when the body fails to parse or carries no such field), and the
raw body (so that distinct responses stay distinct). -/
structure UpstreamResponse where
  status : Nat
  errMsg : Option String
  rawBody : String
deriving Repr, DecidableEq

/-- `Response.ok`: status in the inclusive range 200-299. -/
def respOk (r : UpstreamResponse) : Bool := 200 ≤ r.status && r.status ≤ 299

/-- Outcome of one `fetch`: a settled response, or a transport-level
throw/rejection carrying its stringified error text. -/
inductive FetchOutcome where
  | resp (r : UpstreamResponse)
  | thrown (errText : String)
deriving Repr, DecidableEq

/-- One escaped character of `JSON.stringify` on a string. -/
def jsonEscapeChar (c : Char) : String :=
  if c = '"' then "\\\""
  else if c = '\\' then "\\\\"
  else if c = '\n' then "\\n"
  else if c = '\r' then "\\r"
  else if c = '\t' then "\\t"
  else String.mk [c]

/-- `JSON.stringify` escaping of a string body. -/
def jsonEscape (s : String) : String := String.join (s.data.map jsonEscapeChar)

/-- The serialized error body `JSON.stringify({error: {message}})`. -/
def jsonErrorBody (msg : String) : String :=
  "\x7b\"error\":\x7b\"message\":\"" ++ jsonEscape msg ++ "\"\x7d\x7d"

/-- The error `Response` the orchestrator constructs:
`new Response(JSON.stringify({error:{message}}), {status, ...})`. -/
structure ErrResponse where
  status : Nat
  message : String
  body : String
deriving Repr, DecidableEq

/-- Build the error `Response` from a status and a message. -/
def mkErrorResponse (status : Nat) (msg : String) : ErrResponse :=
  ⟨status, msg, jsonErrorBody msg⟩

/-- The `{response, error}` pair `startUpstreamRequest` resolves with. -/
structure DispatchPair where
  response : Option UpstreamResponse
  error : Option ErrResponse
deriving Repr, DecidableEq

/-- The structured JSON body shipped to the primary backend. -/
structure PrimaryBody where
  model : String
  instructions : String
  input : List String
  tools : List String
  tool_choice : ToolChoiceVal
  parallel_tool_calls : Bool
  store : Bool
  stream : Bool
  «include» : List String
  prompt_cache_key : Option String
  reasoning : Option ReasoningParam
deriving Repr, DecidableEq

/-- A request body: the structured primary-backend body, or the opaque
pre-serialized Ollama payload. -/
inductive BodyData where
  | primary (b : PrimaryBody)
  | ollama (payload : Option String)
deriving Repr, DecidableEq

/-- One outbound request as handed to `fetch`. -/
structure RequestData where
  url : String
  headers : List (String × String)
  body : BodyData
deriving Repr, DecidableEq

/-! ## Request shaping -/

/-- The `include` list: `["reasoning.encrypted_content"]` unless
`reasoningParam?.effort === "none"` (lines 76-79). -/
def includeList (reasoningParam : Option ReasoningParam) : List String :=
  if (reasoningParam.bind (fun rp => rp.effort)) = some "none" then []
  else ["reasoning.encrypted_content"]

/-- The shaped `tool_choice` (lines 97-101): keep the caller's value when
it is truthy and is `"auto"`, `"none"` or any object, or when it is
absent (in which case `undefined || "auto"` yields `"auto"`); otherwise
fall back to `"auto"`. -/
def shapeToolChoice (toolChoice : Option ToolChoiceVal) : ToolChoiceVal :=
  match toolChoice with
  | none => .str "auto"
  | some v =>
      if v.truthy && (v = .str "auto" || v = .str "none" || v.isObj) then v
      else .str "auto"

/-- The structured primary-backend body (lines 92-108).  The external
`normalizeModelName` and the fetched base instructions are parameters. -/
def mkPrimaryBody (normalize : String → Option String → String)
    (baseInstructions : String) (env : EnvM) (model : String)
    (inputItems : List String) (opts : Options) (sessionId : Option String) :
    PrimaryBody :=
  { model := normalize model env.DEBUG_MODEL
    instructions := jsOrElse opts.instructions baseInstructions
    input := inputItems
    tools := opts.tools.getD []
    tool_choice := shapeToolChoice opts.toolChoice
    parallel_tool_calls := opts.parallelToolCalls.getD false
    store := false
    stream := true
    «include» := includeList opts.reasoningParam
    prompt_cache_key := sessionId
    reasoning := opts.reasoningParam }

/-- The bare headers `{"Content-Type": "application/json"}`. -/
def baseHeaders : List (String × String) := [("Content-Type", "application/json")]

/-- The primary-backend headers (lines 110-122 and 163-175): base headers
plus bearer authorization, streaming accept, account id, beta flag, and
the session header when a (truthy) session id was computed. -/
def primaryHeaders (accessToken accountId : String) (sessionId : Option String) :
    List (String × String) :=
  baseHeaders ++
    [("Authorization", "Bearer " ++ accessToken), ("Accept", "text/event-stream"),
     ("chatgpt-account-id", accountId), ("OpenAI-Beta", "responses=experimental")] ++
    (if strTruthy sessionId then [("session_id", sessionId.getD "")] else [])

/-- The message of an upstream-error result (line 200):
`(errorBody.error && errorBody.error.message) || "Upstream error"`. -/
def upstreamErrMessage (errMsg : Option String) : String :=
  jsOrElse errMsg "Upstream error"

/-! ## The dispatch orchestrator -/

/-- Embedding of `startUpstreamRequest` (`src/upstream.ts`, lines 30-222).

Inputs standing for the external collaborators: `auth` is the value of
`await getRefreshedAuth(env)`, `refresh` the value `refreshAccessToken(env)`
would resolve with, `normalize` is `normalizeModelName`, `baseInstructions`
the resolved `getBaseInstructions()`, and `transport n` the outcome of the
`n`-th `fetch` this invocation would issue (counted from 0).

The result is the `{response, error}` pair together with the list of
outbound requests actually issued, in order.  Totality of this function
is the embedding of the orchestrator's try/catch boundary. -/
def startUpstreamRequest (env : EnvM) (auth : AuthPair)
    (refresh : Option RefreshedTokens)
    (normalize : String → Option String → String) (baseInstructions : String)
    (transport : Nat → FetchOutcome) (model : String)
    (inputItems : List String) (opts : Options) :
    DispatchPair × List RequestData :=
  if !strTruthy auth.accessToken || !strTruthy auth.accountId then
    (⟨none, some (mkErrorResponse 401 "Missing ChatGPT credentials. Run 'codex login' first")⟩, [])
  else
    let accessToken := auth.accessToken.getD ""
    let accountId := auth.accountId.getD ""
    let isOllamaRequest := strTruthy opts.ollamaPath
    let requestUrl :=
      if isOllamaRequest then env.OLLAMA_API_URL ++ opts.ollamaPath.getD ""
      else env.CHATGPT_RESPONSES_URL
    let sessionId :=
      if isOllamaRequest then none
      else some (generateSessionId opts.instructions inputItems)
    let requestBody :=
      if isOllamaRequest then BodyData.ollama opts.ollamaPayload
      else BodyData.primary (mkPrimaryBody normalize baseInstructions env model inputItems opts sessionId)
    let headers := if isOllamaRequest then baseHeaders else primaryHeaders accessToken accountId sessionId
    let req0 : RequestData := ⟨requestUrl, headers, requestBody⟩
    match transport 0 with
    | .thrown m =>
        (⟨none, some (mkErrorResponse 502 ("Upstream ChatGPT request failed: " ++ m))⟩, [req0])
    | .resp r =>
        if respOk r then (⟨some r, none⟩, [req0])
        else
          if r.status == 401 && env.OPENAI_CODEX_AUTH then
            match refresh with
            | some t =>
                let retryHeaders :=
                  if isOllamaRequest then baseHeaders
                  else primaryHeaders t.access_token (jsOrElse t.account_id accountId) sessionId
                let req1 : RequestData := ⟨requestUrl, retryHeaders, requestBody⟩
                match transport 1 with
                | .thrown m =>
                    (⟨none, some (mkErrorResponse 502 ("Upstream ChatGPT request failed: " ++ m))⟩,
                      [req0, req1])
                | .resp r2 =>
                    if respOk r2 then (⟨some r2, none⟩, [req0, req1])
                    else
                      (⟨none, some (mkErrorResponse r.status (upstreamErrMessage r.errMsg))⟩,
                        [req0, req1])
            | none =>
                (⟨none, some (mkErrorResponse r.status (upstreamErrMessage r.errMsg))⟩, [req0])
          else
            (⟨none, some (mkErrorResponse r.status (upstreamErrMessage r.errMsg))⟩, [req0])

/-! ## Spec-side definitions used to compare against the code -/

/-- Modelled from the spec: a well-formed structured function-choice
object carries a `type` field and a `function.name` field (for example
`{type: "function", function: {name: "foo"}}`). -/
def isWellFormedFunctionChoice : ToolChoiceVal → Bool
  | .obj (some _) (some _) => true
  | _ => false

/-- Modelled from the spec, as amended: the shaped tool choice keeps the
caller's value when it is the literal `"auto"`, the literal `"none"`, or
any object value; every other value, and an absent value, collapses to
`"auto"`. -/
def amendedToolChoice : Option ToolChoiceVal → ToolChoiceVal
  | none => ToolChoiceVal.str "auto"
  | some v =>
      if v = ToolChoiceVal.str "auto" then v
      else if v = ToolChoiceVal.str "none" then v
      else if v.isObj then v
      else ToolChoiceVal.str "auto"

/-! ## Helper lemmas -/

theorem hexFlatten_length (bs : List Nat) :
    ((bs.map hexPair).flatten).length = 2 * bs.length := by
  induction bs with
  | nil => rfl
  | cons b t ih =>
      simp only [List.map_cons, List.flatten_cons, List.length_append, ih,
        hexPair, List.length_cons, List.length_nil]
      omega

theorem bytesToHex_length (bs : List Nat) : (bytesToHex bs).length = 2 * bs.length := by
  simpa [bytesToHex, String.length] using hexFlatten_length bs

theorem sha256_length (msg : List Nat) : (sha256 msg).length = 32 := by
  simp [sha256, wordBytes]

/-! ## Claim theorems: request shaping and the session fingerprint -/

/-- C7 (counterexample to the claim as stated): the caller-supplied tool
choice `{}` — an object with neither a `type` nor a `function.name`
field, hence not a well-formed structured function-choice — is passed
through unchanged into the shaped body instead of falling back to
`"auto"`: the code checks only `typeof toolChoice === "object"`. -/
theorem tool_choice_malformed_passthrough :
    isWellFormedFunctionChoice (ToolChoiceVal.obj none none) = false ∧
    ToolChoiceVal.obj none none ≠ ToolChoiceVal.str "auto" ∧
    ToolChoiceVal.obj none none ≠ ToolChoiceVal.str "none" ∧
    (mkPrimaryBody (fun m _ => m) "base" ⟨true, "https://r", "http://o", none⟩ "gpt-5" ["i"]
        { noOptions with toolChoice := some (ToolChoiceVal.obj none none) } none).tool_choice =
      ToolChoiceVal.obj none none :=
  ⟨rfl, by decide, by decide, rfl⟩

/-- C7 (as amended): in the shaped primary-backend body, `tool_choice`
equals the caller's value when that value is the literal `"auto"`, the
literal `"none"`, or any object value (well-formed or not); it equals
`"auto"` for every other value and when no value is supplied. -/
theorem tool_choice_shaping_amended
    (normalize : String → Option String → String) (baseInstructions : String)
    (env : EnvM) (model : String) (inputItems : List String) (opts : Options)
    (sessionId : Option String) :
    (mkPrimaryBody normalize baseInstructions env model inputItems opts
        sessionId).tool_choice = amendedToolChoice opts.toolChoice := by
  simp only [mkPrimaryBody, shapeToolChoice, amendedToolChoice]
  cases hc : opts.toolChoice with
  | none => rfl
  | some v =>
      cases v with
      | obj t f => simp [ToolChoiceVal.truthy, ToolChoiceVal.isObj]
      | str s =>
          by_cases ha : s = "auto"
          · subst ha; rfl
          · by_cases hn : s = "none"
            · subst hn; rfl
            · simp [ToolChoiceVal.truthy, ToolChoiceVal.isObj, ha, hn]

/-- C8: in the shaped primary-backend body, the `include` array contains
`"reasoning.encrypted_content"` exactly once when the reasoning effort is
anything other than `"none"` (including when no reasoning configuration
or no effort is supplied), and zero times when the effort is exactly
`"none"`. -/
theorem primary_include_reasoning
    (normalize : String → Option String → String) (baseInstructions : String)
    (env : EnvM) (model : String) (inputItems : List String) (opts : Options)
    (sessionId : Option String) :
    ((mkPrimaryBody normalize baseInstructions env model inputItems opts
        sessionId).«include»).count "reasoning.encrypted_content" =
      (if opts.reasoningParam.bind (fun rp => rp.effort) = some "none" then 0 else 1) := by
  simp only [mkPrimaryBody, includeList]
  split <;> rfl

/-- C9: the session fingerprint is the lowercase two-digit-per-byte hex
rendering of the SHA-256 digest of the UTF-8 encoding of
`(instructions || "") + "|" + JSON.stringify(inputItems)`; it is
deterministic and always 64 characters long. -/
theorem generateSessionId_spec (instructions : Option String) (inputItems : List String) :
    generateSessionId instructions inputItems =
      bytesToHex (sha256 (utf8Bytes
        ((instructions.getD "") ++ "|" ++ jsonStringifyItems inputItems))) ∧
    generateSessionId instructions inputItems = generateSessionId instructions inputItems ∧
    (generateSessionId instructions inputItems).length = 64 := by
  refine ⟨rfl, rfl, ?_⟩
  rw [generateSessionId, bytesToHex_length, sha256_length]

/-! ## Claim theorems: the dispatch orchestrator -/

/-- C2: when the credential accessor yields a missing access token or a
missing account id, the orchestrator resolves with the fixed 401
missing-credentials error, no success response, and an empty list of
outbound requests. -/
theorem upstream_missing_credentials (env : EnvM) (auth : AuthPair)
    (refresh : Option RefreshedTokens)
    (normalize : String → Option String → String) (baseInstructions : String)
    (transport : Nat → FetchOutcome) (model : String) (inputItems : List String)
    (opts : Options)
    (h : auth.accessToken = none ∨ auth.accountId = none) :
    startUpstreamRequest env auth refresh normalize baseInstructions transport
        model inputItems opts =
      (⟨none, some (mkErrorResponse 401
          "Missing ChatGPT credentials. Run 'codex login' first")⟩, []) := by
  have hc : (!strTruthy auth.accessToken || !strTruthy auth.accountId) = true := by
    rcases h with h | h <;> simp [strTruthy, h]
  simp [startUpstreamRequest, hc]

/-- C10: the missing-credentials precondition applies to alternate-backend
(Ollama) dispatches as well: with a truthy `ollamaPath`, a missing access
token or account id still yields the 401 missing-credentials error and no
outbound request is issued. -/
theorem ollama_missing_credentials (env : EnvM) (auth : AuthPair)
    (refresh : Option RefreshedTokens)
    (normalize : String → Option String → String) (baseInstructions : String)
    (transport : Nat → FetchOutcome) (model : String) (inputItems : List String)
    (opts : Options)
    (hOllama : strTruthy opts.ollamaPath = true)
    (h : auth.accessToken = none ∨ auth.accountId = none) :
    startUpstreamRequest env auth refresh normalize baseInstructions transport
        model inputItems opts =
      (⟨none, some (mkErrorResponse 401
          "Missing ChatGPT credentials. Run 'codex login' first")⟩, []) := by
  have hc : (!strTruthy auth.accessToken || !strTruthy auth.accountId) = true := by
    rcases h with h | h <;> simp [strTruthy, h]
  simp [startUpstreamRequest, hc]

/-- C5: a transport-level throw on the initial send resolves to a failure
with status 502 whose message is the phrase
`"Upstream ChatGPT request failed: "` followed by the underlying error
text. -/
theorem upstream_transport_failure (env : EnvM) (auth : AuthPair)
    (refresh : Option RefreshedTokens)
    (normalize : String → Option String → String) (baseInstructions : String)
    (transport : Nat → FetchOutcome) (model : String) (inputItems : List String)
    (opts : Options) (m : String)
    (hTok : strTruthy auth.accessToken = true) (hAcc : strTruthy auth.accountId = true)
    (h0 : transport 0 = FetchOutcome.thrown m) :
    (startUpstreamRequest env auth refresh normalize baseInstructions transport
        model inputItems opts).1 =
      ⟨none, some (mkErrorResponse 502 ("Upstream ChatGPT request failed: " ++ m))⟩ := by
  simp [startUpstreamRequest, hTok, hAcc, h0]

/-- C1: an initial 401 with the refresh mechanism configured, a successful
forced refresh, and a 2xx retry resolve to a success equal to the retry's
response with no error; the original 401 response (distinct from the
retry's) is not returned. -/
theorem upstream_401_refresh_retry_success (env : EnvM) (auth : AuthPair)
    (t : RefreshedTokens)
    (normalize : String → Option String → String) (baseInstructions : String)
    (transport : Nat → FetchOutcome) (model : String) (inputItems : List String)
    (opts : Options) (r r2 : UpstreamResponse)
    (hTok : strTruthy auth.accessToken = true) (hAcc : strTruthy auth.accountId = true)
    (hCfg : env.OPENAI_CODEX_AUTH = true)
    (h0 : transport 0 = FetchOutcome.resp r) (hSt : r.status = 401)
    (h1 : transport 1 = FetchOutcome.resp r2) (hOk : respOk r2 = true) :
    (startUpstreamRequest env auth (some t) normalize baseInstructions transport
        model inputItems opts).1 = ⟨some r2, none⟩ ∧ r ≠ r2 := by
  have hnotok : respOk r = false := by simp [respOk, hSt]
  constructor
  · simp [startUpstreamRequest, hTok, hAcc, h0, hnotok, hSt, hCfg, h1, hOk]
  · intro he
    subst he
    simp [respOk, hSt] at hOk

/-- C3 (as amended): an initial 401 with refresh configured, followed by a
failed forced refresh or by a non-2xx retry, resolves to a failure whose
status is the original 401 and whose message is the original 401 body's
`error.message` when that field is present and non-empty, and
`"Upstream error"` when it is absent or empty; the retry's own error body
is never consulted. -/
theorem upstream_401_unrecoverable (env : EnvM) (auth : AuthPair)
    (refresh : Option RefreshedTokens)
    (normalize : String → Option String → String) (baseInstructions : String)
    (transport : Nat → FetchOutcome) (model : String) (inputItems : List String)
    (opts : Options) (r : UpstreamResponse)
    (hTok : strTruthy auth.accessToken = true) (hAcc : strTruthy auth.accountId = true)
    (hCfg : env.OPENAI_CODEX_AUTH = true)
    (h0 : transport 0 = FetchOutcome.resp r) (hSt : r.status = 401)
    (hFail : refresh = none ∨
      ∃ r2, transport 1 = FetchOutcome.resp r2 ∧ respOk r2 = false) :
    (startUpstreamRequest env auth refresh normalize baseInstructions transport
        model inputItems opts).1 =
      ⟨none, some (mkErrorResponse 401 (upstreamErrMessage r.errMsg))⟩ ∧
    upstreamErrMessage r.errMsg =
      (if r.errMsg = none ∨ r.errMsg = some "" then "Upstream error"
       else (r.errMsg).getD "") := by
  have hnotok : respOk r = false := by simp [respOk, hSt]
  constructor
  · rcases hFail with hN | ⟨r2, h1, hok2⟩
    · subst hN
      simp [startUpstreamRequest, hTok, hAcc, h0, hnotok, hSt, hCfg]
    · rcases refresh with _ | t <;>
        simp [startUpstreamRequest, hTok, hAcc, h0, hnotok, hSt, hCfg, h1, hok2]
  · cases hm : r.errMsg with
    | none => simp [upstreamErrMessage, jsOrElse]
    | some s =>
        by_cases hs : s = ""
        · subst hs; simp [upstreamErrMessage, jsOrElse, String.isEmpty_iff]
        · simp [upstreamErrMessage, jsOrElse, hs, String.isEmpty_iff]

/-- C3 (counterexample to the claim as stated): when the original 401
body carries the present-but-empty field `error.message = ""` and the
refresh fails, the surfaced message is `"Upstream error"`, not the value
of the `error.message` field. -/
theorem upstream_401_empty_message_counterexample :
    (UpstreamResponse.mk 401 (some "") "errbody").errMsg = some "" ∧
    ((startUpstreamRequest ⟨true, "https://r", "http://o", none⟩ ⟨some "tok", some "acc"⟩
        none (fun m _ => m) "base" (fun _ => FetchOutcome.resp ⟨401, some "", "errbody"⟩)
        "gpt-5" ["i"] { noOptions with ollamaPath := some "/api/chat" }).1).error =
      some (mkErrorResponse 401 "Upstream error") ∧
    "Upstream error" ≠ "" :=
  ⟨rfl, rfl, by decide⟩

/-- C4: every invocation issues at most two outbound sends, and a second
send happens only when the initial send settled with status exactly 401
while the refresh mechanism is configured. -/
theorem upstream_at_most_two_sends (env : EnvM) (auth : AuthPair)
    (refresh : Option RefreshedTokens)
    (normalize : String → Option String → String) (baseInstructions : String)
    (transport : Nat → FetchOutcome) (model : String) (inputItems : List String)
    (opts : Options) :
    (startUpstreamRequest env auth refresh normalize baseInstructions transport
        model inputItems opts).2.length ≤ 2 ∧
    ((startUpstreamRequest env auth refresh normalize baseInstructions transport
        model inputItems opts).2.length ≤ 1 ∨
      ∃ r, transport 0 = FetchOutcome.resp r ∧ r.status = 401 ∧
        env.OPENAI_CODEX_AUTH = true ∧ refresh ≠ none) := by
  simp only [startUpstreamRequest]
  split
  · exact ⟨by simp, Or.inl (by simp)⟩
  · split
    next m heq => exact ⟨by simp, Or.inl (by simp)⟩
    next r heq =>
      split
      · exact ⟨by simp, Or.inl (by simp)⟩
      · split
        next hcond =>
          rw [Bool.and_eq_true] at hcond
          have h401 : r.status = 401 := by simpa using hcond.1
          have hauth : env.OPENAI_CODEX_AUTH = true := hcond.2
          split
          next t =>
            split
            next m2 heq2 => exact ⟨by simp, Or.inr ⟨r, heq, h401, hauth, by simp⟩⟩
            next r2 heq2 =>
              split
              · exact ⟨by simp, Or.inr ⟨r, heq, h401, hauth, by simp⟩⟩
              · exact ⟨by simp, Or.inr ⟨r, heq, h401, hauth, by simp⟩⟩
          next => exact ⟨by simp, Or.inl (by simp)⟩
        next hcond => exact ⟨by simp, Or.inl (by simp)⟩

/-- C6: the resolved pair has exactly one non-null component; every error
component carries the serialized JSON body
`{"error": {"message": <message>}}`, and its status is 401 with the fixed
message when credentials are missing, 502 when a send threw, or the
mirrored status and extracted message of the initial upstream response. -/
theorem upstream_result_shape (env : EnvM) (auth : AuthPair)
    (refresh : Option RefreshedTokens)
    (normalize : String → Option String → String) (baseInstructions : String)
    (transport : Nat → FetchOutcome) (model : String) (inputItems : List String)
    (opts : Options) :
    (∃ r, (startUpstreamRequest env auth refresh normalize baseInstructions transport
        model inputItems opts).1 = ⟨some r, none⟩) ∨
    (∃ e, (startUpstreamRequest env auth refresh normalize baseInstructions transport
        model inputItems opts).1 = ⟨none, some e⟩ ∧
      e.body = jsonErrorBody e.message ∧
      (((strTruthy auth.accessToken = false ∨ strTruthy auth.accountId = false) ∧
          e.status = 401 ∧
          e.message = "Missing ChatGPT credentials. Run 'codex login' first") ∨
        (∃ m, (transport 0 = FetchOutcome.thrown m ∨ transport 1 = FetchOutcome.thrown m) ∧
          e.status = 502 ∧ e.message = "Upstream ChatGPT request failed: " ++ m) ∨
        (∃ r, transport 0 = FetchOutcome.resp r ∧ e.status = r.status ∧
          e.message = upstreamErrMessage r.errMsg))) := by
  simp only [startUpstreamRequest]
  split
  next hcred =>
    simp only [Bool.or_eq_true, Bool.not_eq_true'] at hcred
    exact Or.inr ⟨_, rfl, rfl, Or.inl ⟨hcred, rfl, rfl⟩⟩
  next hcred =>
    split
    next m heq => exact Or.inr ⟨_, rfl, rfl, Or.inr (Or.inl ⟨m, Or.inl heq, rfl, rfl⟩)⟩
    next r heq =>
      split
      next hok => exact Or.inl ⟨r, rfl⟩
      next hok =>
        split
        next hcond =>
          split
          next t =>
            split
            next m2 heq2 =>
              exact Or.inr ⟨_, rfl, rfl, Or.inr (Or.inl ⟨m2, Or.inr heq2, rfl, rfl⟩)⟩
            next r2 heq2 =>
              split
              next hok2 => exact Or.inl ⟨r2, rfl⟩
              next hok2 =>
                exact Or.inr ⟨_, rfl, rfl, Or.inr (Or.inr ⟨r, heq, rfl, rfl⟩)⟩
          next => exact Or.inr ⟨_, rfl, rfl, Or.inr (Or.inr ⟨r, heq, rfl, rfl⟩)⟩
        next hcond => exact Or.inr ⟨_, rfl, rfl, Or.inr (Or.inr ⟨r, heq, rfl, rfl⟩)⟩

/-! ## Concrete fixtures for the witnesses -/

/-- A pass-through stand-in for the external `normalizeModelName`. -/
def cNormalize : String → Option String → String := fun m _ => m

/-- A concrete environment with the refresh mechanism configured. -/
def cEnv : EnvM := ⟨true, "https://chatgpt.example/responses", "http://localhost:11434", none⟩

/-- Concrete present credentials. -/
def cAuthOk : AuthPair := ⟨some "tok", some "acc"⟩

/-- Concrete credentials with the access token missing. -/
def cAuthNoToken : AuthPair := ⟨none, some "acc"⟩

/-- Concrete credentials with the account id missing. -/
def cAuthNoAccount : AuthPair := ⟨some "tok", none⟩

/-- Concrete alternate-backend options. -/
def cOllamaOpts : Options :=
  { noOptions with ollamaPath := some "/api/chat", ollamaPayload := some "payload" }

/-- A concrete 401 upstream response with a non-empty `error.message`. -/
def cResp401 : UpstreamResponse := ⟨401, some "token expired", "err1"⟩

/-- A concrete 200 upstream response. -/
def cResp200 : UpstreamResponse := ⟨200, none, "ok"⟩

/-- A concrete successful forced refresh. -/
def cRefreshed : RefreshedTokens := ⟨"tok2", some "acc2"⟩

/-- A transport that settles 401 on the first send, 200 on the second. -/
def cTransportRetryOk : Nat → FetchOutcome :=
  fun n => if n = 0 then FetchOutcome.resp cResp401 else FetchOutcome.resp cResp200

/-- A transport that always settles 401. -/
def cTransport401 : Nat → FetchOutcome := fun _ => FetchOutcome.resp cResp401

/-- A transport that always throws. -/
def cTransportThrow : Nat → FetchOutcome := fun _ => FetchOutcome.thrown "connect ECONNREFUSED"

/-! ## Witnesses -/

/-- Witness for C1 at a concrete 401 / refresh / 200 run. -/
theorem upstream_401_refresh_retry_success_witness :
    (startUpstreamRequest cEnv cAuthOk (some cRefreshed) cNormalize "base"
        cTransportRetryOk "gpt-5" ["item"] cOllamaOpts).1 = ⟨some cResp200, none⟩ ∧
    cResp401 ≠ cResp200 :=
  upstream_401_refresh_retry_success cEnv cAuthOk cRefreshed cNormalize "base"
    cTransportRetryOk "gpt-5" ["item"] cOllamaOpts cResp401 cResp200
    (by decide) (by decide) rfl rfl rfl rfl (by decide)

/-- Witness for C2 at concrete token-missing credentials. -/
theorem upstream_missing_credentials_witness :
    startUpstreamRequest cEnv cAuthNoToken none cNormalize "base" cTransport401
        "gpt-5" ["item"] noOptions =
      (⟨none, some (mkErrorResponse 401
          "Missing ChatGPT credentials. Run 'codex login' first")⟩, []) :=
  upstream_missing_credentials cEnv cAuthNoToken none cNormalize "base" cTransport401
    "gpt-5" ["item"] noOptions (Or.inl rfl)

/-- Witness for C3 at a concrete 401 run whose forced refresh fails. -/
theorem upstream_401_unrecoverable_witness :
    (startUpstreamRequest cEnv cAuthOk none cNormalize "base" cTransport401
        "gpt-5" ["item"] cOllamaOpts).1 =
      ⟨none, some (mkErrorResponse 401 (upstreamErrMessage cResp401.errMsg))⟩ ∧
    upstreamErrMessage cResp401.errMsg =
      (if cResp401.errMsg = none ∨ cResp401.errMsg = some "" then "Upstream error"
       else (cResp401.errMsg).getD "") :=
  upstream_401_unrecoverable cEnv cAuthOk none cNormalize "base" cTransport401
    "gpt-5" ["item"] cOllamaOpts cResp401 (by decide) (by decide) rfl rfl rfl (Or.inl rfl)

/-- Witness for C5 at a concrete throwing transport. -/
theorem upstream_transport_failure_witness :
    (startUpstreamRequest cEnv cAuthOk none cNormalize "base" cTransportThrow
        "gpt-5" ["item"] cOllamaOpts).1 =
      ⟨none, some (mkErrorResponse 502
        ("Upstream ChatGPT request failed: " ++ "connect ECONNREFUSED"))⟩ :=
  upstream_transport_failure cEnv cAuthOk none cNormalize "base" cTransportThrow
    "gpt-5" ["item"] cOllamaOpts "connect ECONNREFUSED" (by decide) (by decide) rfl

/-- Witness for C10 at a concrete alternate-backend dispatch with the
account id missing. -/
theorem ollama_missing_credentials_witness :
    startUpstreamRequest cEnv cAuthNoAccount none cNormalize "base" cTransport401
        "gpt-5" ["item"] cOllamaOpts =
      (⟨none, some (mkErrorResponse 401
          "Missing ChatGPT credentials. Run 'codex login' first")⟩, []) :=
  ollama_missing_credentials cEnv cAuthNoAccount none cNormalize "base" cTransport401
    "gpt-5" ["item"] cOllamaOpts (by decide) (Or.inr rfl)
